import Mathlib

/-!
Verification of the CloudFront abuse-detection core: a shallow embedding of
`src/abuse_detector.py`, `src/distribution_processor.py` and
`src/alert_manager.py`, with theorems for the specified properties.

Modelling conventions:
* Python floats (metric values, multipliers, thresholds, percentages) are
  embedded as rationals `ℚ`; counters are `ℤ` (Python ints are unbounded and
  the clamping `max(0, count - 1)` is about signed arithmetic).
* The DynamoDB counter table is an association list `Store` from key strings
  to counts; `storePut` overwrites by shadowing (lookup returns the most
  recent entry), matching put/get semantics of a key-value store.  Only the
  `Count` attribute is modelled; `LastUpdate` and `TTL` do not influence any
  control flow of the claims.
* Fallible store operations are modelled by explicit success flags
  (`winGetOk`, `mainPutOk`, `winPutOk`, ...): a failed put leaves the store
  unchanged, a failed get takes the exception branch of the code.
* The wall clock only enters through the 15-minute window suffix and the
  hour suffix of keys, so those are passed as abstract strings.
-/

/-- The abuse-counter table: an association list from counter keys to the
stored `Count` attribute. -/
abbrev Store := List (String × Int)

/-- `get_item` on the counter table projected to the `Count` attribute:
first (most recent) binding of the key wins. -/
def storeGet : Store → String → Option Int
  | [], _ => none
  | (k, v) :: rest, key => if k = key then some v else storeGet rest key

/-- `put_item` on the counter table: overwrite by shadowing. -/
def storePut (st : Store) (key : String) (v : Int) : Store :=
  (key, v) :: st

/-- `AbuseDetector.get_abuse_counter`: read the counter; an absent item (and,
in the source, a store error) reads as 0. -/
def get_abuse_counter (st : Store) (key : String) : Int :=
  match storeGet st key with
  | some c => c
  | none => 0

/-- The 15-minute idempotency window key
built in the source from the key, a hash mark and the current UTC time
floored to 15 minutes; the time-derived
suffix is abstracted as the string `win`. -/
def windowKey (key win : String) : String :=
  key ++ "#" ++ win

/-- The counter transition of `update_abuse_counter`: increment on abuse,
otherwise decrement clamped at 0 (`max(0, current_count - 1)`). -/
def counterStep (is_abuse : Bool) (current_count : Int) : Int :=
  if is_abuse then current_count + 1 else max 0 (current_count - 1)

/-- `AbuseDetector.update_abuse_counter`.  Control flow of the source:
1. look up the window marker; if present return its cached count
   (idempotency short-circuit); if the lookup fails (`winGetOk = false`)
   continue as on a cache miss;
2. read the canonical counter, compute the new count;
3. put the canonical record; on failure (`mainPutOk = false`) return the
   pre-update count;
4. put the window marker; its failure (`winPutOk = false`) is logged only.
Returns the count reported to the caller and the resulting store. -/
def update_abuse_counter (st : Store) (key win : String) (is_abuse : Bool)
    (winGetOk mainPutOk winPutOk : Bool) : Int × Store :=
  let window_key := windowKey key win
  match (if winGetOk then storeGet st window_key else none) with
  | some cached_count => (cached_count, st)
  | none =>
    let current_count := get_abuse_counter st key
    let new_count := counterStep is_abuse current_count
    if mainPutOk then
      let st1 := storePut st key new_count
      let st2 := if winPutOk then storePut st1 window_key new_count else st1
      (new_count, st2)
    else
      (current_count, st)

/-- `n` further fully-successful `update_abuse_counter` calls with the same
key, window and flag, collecting the returned counts. -/
def updateSeq (key win : String) (is_abuse : Bool) : Nat → Store → List Int × Store
  | 0, st => ([], st)
  | Nat.succ n, st =>
    let r := update_abuse_counter st key win is_abuse true true true
    let rest := updateSeq key win is_abuse n r.2
    (r.1 :: rest.1, rest.2)

/-- One `update_abuse_counter` call in a sequence: key, window suffix,
abuse flag, and the success flags of its three store operations. -/
structure UpdateOp where
  key : String
  win : String
  is_abuse : Bool
  winGetOk : Bool
  mainPutOk : Bool
  winPutOk : Bool

/-- Run a sequence of `update_abuse_counter` calls, collecting every count
returned to callers. -/
def runUpdates : List UpdateOp → Store → List Int × Store
  | [], st => ([], st)
  | op :: rest, st =>
    let r := update_abuse_counter st op.key op.win op.is_abuse
      op.winGetOk op.mainPutOk op.winPutOk
    let rr := runUpdates rest r.2
    (r.1 :: rr.1, rr.2)

/-- Every count stored in the table is non-negative. -/
def StoreNonneg (st : Store) : Prop :=
  ∀ k c, storeGet st k = some c → 0 ≤ c

/-- Detection configuration (`src/config.py`, fields used by the core).
Durations are the integer consecutive-count gates; all metric values,
multipliers and thresholds are embedded as rationals. -/
structure Config where
  abuse_multiplier : ℚ
  warning_multiplier : ℚ
  duration_threshold : Int
  warning_duration_threshold : Int
  min_requests_threshold : ℚ
  min_bytes_threshold : ℚ
  critical_requests_threshold : ℚ
  critical_bytes_threshold : ℚ
  warning_requests_threshold : ℚ
  warning_bytes_threshold : ℚ
  minimum_baseline_requests : ℚ
  minimum_baseline_bytes : ℚ
deriving DecidableEq

/-- The defaults of `src/config.py`. -/
def defaultConfig : Config where
  abuse_multiplier := 3
  warning_multiplier := 2
  duration_threshold := 1
  warning_duration_threshold := 2
  min_requests_threshold := 1000
  min_bytes_threshold := 500 * 1024 * 1024
  critical_requests_threshold := 2500
  critical_bytes_threshold := 1280 * 1024 * 1024
  warning_requests_threshold := 1250
  warning_bytes_threshold := 512 * 1024 * 1024
  minimum_baseline_requests := 25
  minimum_baseline_bytes := 25 * 1024 * 1024

/-- A Python float percentage that is either finite or positive infinity. -/
inductive PctChange where
  | finite (value : ℚ)
  | posInf
deriving DecidableEq

/-- `AbuseDetector._check_threshold`: `current > average * multiplier`, with
a zero average meaning any positive current exceeds the threshold. -/
def check_threshold (current average multiplier : ℚ) : Bool :=
  if average = 0 then
    decide (0 < current)
  else
    decide (average * multiplier < current)

/-- `AbuseDetector._check_absolute_threshold`: highest absolute tier met by
`current` for the given metric, as `(meets_threshold, severity_level)`. -/
def check_absolute_threshold (cfg : Config) (metric_name : String)
    (current : ℚ) : Bool × String :=
  if metric_name = "Requests" then
    if cfg.critical_requests_threshold ≤ current then (true, "Critical")
    else if cfg.warning_requests_threshold ≤ current then (true, "Warning")
    else (false, "None")
  else
    if cfg.critical_bytes_threshold ≤ current then (true, "Critical")
    else if cfg.warning_bytes_threshold ≤ current then (true, "Warning")
    else (false, "None")

/-- `AbuseDetector._calculate_percentage_change`: the denominator is
`max(average, minimum_baseline)`; a zero denominator yields 0 when current
is 0 and positive infinity otherwise. -/
def calculate_percentage_change (current average minimum_baseline : ℚ) :
    PctChange :=
  let baseline := max average minimum_baseline
  if baseline = 0 then
    if current = 0 then PctChange.finite 0 else PctChange.posInf
  else
    PctChange.finite ((current - average) / baseline * 100)

/-- Result record of `AbuseDetector.evaluate_metric`.  The `reason` string
keeps the four-way case split of the source; the interpolated numeric values of
the Python f-strings are elided. -/
structure AbuseEvaluation where
  is_abuse : Bool
  severity : String
  reason : String
  percentage_change : PctChange
  meets_critical_threshold : Bool
  meets_warning_threshold : Bool
  meets_absolute_threshold : Bool
  multiplier_level : ℚ
deriving DecidableEq

/-- `AbuseDetector.evaluate_metric`: tiered relative thresholds, absolute
significance threshold, percentage change with minimum baseline, and the
final `is_abuse = (meets_critical or meets_warning) and meets_absolute`.
Note the source replaces the returned severity by None unless is_abuse. -/
def evaluate_metric (cfg : Config) (metric_name : String)
    (current_value avg_value : ℚ) : AbuseEvaluation :=
  let minimum_baseline :=
    if metric_name = "Requests" then cfg.minimum_baseline_requests
    else cfg.minimum_baseline_bytes
  let percentage_change :=
    calculate_percentage_change current_value avg_value minimum_baseline
  let meets_critical := check_threshold current_value avg_value cfg.abuse_multiplier
  let meets_warning := check_threshold current_value avg_value cfg.warning_multiplier
  let meets_absolute := (check_absolute_threshold cfg metric_name current_value).1
  let multiplier_level :=
    if meets_critical then cfg.abuse_multiplier
    else if meets_warning then cfg.warning_multiplier
    else 0
  let severity :=
    if meets_critical then "Critical"
    else if meets_warning then "Warning"
    else "None"
  let is_abuse := (meets_critical || meets_warning) && meets_absolute
  let reason :=
    if is_abuse then
      metric_name ++ " abuse detected"
    else if (meets_critical || meets_warning) && !meets_absolute then
      metric_name ++ " exceeds relative threshold but below absolute significance"
    else if meets_absolute && !(meets_critical || meets_warning) then
      metric_name ++ " exceeds absolute threshold but not relative"
    else
      metric_name ++ " within normal range"
  { is_abuse := is_abuse
    severity := if is_abuse then severity else "None"
    reason := reason
    percentage_change := percentage_change
    meets_critical_threshold := meets_critical
    meets_warning_threshold := meets_warning
    meets_absolute_threshold := meets_absolute
    multiplier_level := multiplier_level }

/-- Result of `DistributionProcessor._process_metric_evaluation`: the number
of alerts queued (0 or 1), the counter value after the update, and the
resulting counter store. -/
structure ProcessResult where
  alerts_sent : Nat
  new_count : Int
  store : Store
deriving DecidableEq

/-- `DistributionProcessor._process_metric_evaluation`: update the abuse
counter from `evaluation.is_abuse`, then queue an alert exactly when
`should_alert` holds — `is_abuse` and, for the critical tier,
`new_count >= duration_threshold`, else for the warning tier
`new_count >= warning_duration_threshold`.  Queuing an alert
(`send_alert_async`) and returning 1 coincide in the source. -/
def process_metric_evaluation (cfg : Config) (st : Store)
    (counter_key win : String) (evaluation : AbuseEvaluation) : ProcessResult :=
  let r := update_abuse_counter st counter_key win evaluation.is_abuse true true true
  let new_count := r.1
  let should_alert :=
    if evaluation.is_abuse then
      if evaluation.meets_critical_threshold then
        decide (cfg.duration_threshold ≤ new_count)
      else if evaluation.meets_warning_threshold then
        decide (cfg.warning_duration_threshold ≤ new_count)
      else false
    else false
  { alerts_sent := if should_alert then 1 else 0
    new_count := new_count
    store := r.2 }

/-- The four numbers `MetricsCollector` hands to the processor. -/
structure DistributionMetrics where
  current_requests : ℚ
  current_bytes : ℚ
  avg_requests : ℚ
  avg_bytes : ℚ
deriving DecidableEq

/-- `DistributionProcessor._should_skip_distribution`: skip when both
metrics are strictly below their minimum thresholds. -/
def should_skip_distribution (cfg : Config)
    (current_requests current_bytes : ℚ) : Bool :=
  decide (current_requests < cfg.min_requests_threshold) &&
    decide (current_bytes < cfg.min_bytes_threshold)

/-- `DistributionProcessor.process_distribution` from the point the metrics
are available: skip small distributions, otherwise evaluate both metrics and
process each evaluation (counter keys are account, distribution and metric
name joined by hash marks).  Returns the number of alerts sent and the
resulting counter store. -/
def process_distribution (cfg : Config) (st : Store)
    (account_id dist_id win : String) (m : DistributionMetrics) :
    Nat × Store :=
  if should_skip_distribution cfg m.current_requests m.current_bytes then
    (0, st)
  else
    let requests_eval := evaluate_metric cfg "Requests" m.current_requests m.avg_requests
    let bytes_eval := evaluate_metric cfg "BytesDownloaded" m.current_bytes m.avg_bytes
    let r1 := process_metric_evaluation cfg st
      (account_id ++ "#" ++ dist_id ++ "#" ++ "Requests") win requests_eval
    let r2 := process_metric_evaluation cfg r1.store
      (account_id ++ "#" ++ dist_id ++ "#" ++ "BytesDownloaded") win bytes_eval
    (r1.alerts_sent + r2.alerts_sent, r2.store)

/-- Deduplication state of `AlertManager`: the in-process set of sent alert
keys and the durable sent-alerts table (modelled by the set of keys whose
item exists). -/
structure AlertState where
  sentMem : List String
  sentStore : List String
deriving DecidableEq

/-- The hourly deduplication key
(account, distribution, metric and the hour-floored timestamp joined by hash
marks); the hour-floored timestamp is abstracted as the string `hour`. -/
def alertKey (account_id dist_id metric hour : String) : String :=
  account_id ++ "#" ++ dist_id ++ "#" ++ metric ++ "#" ++ hour

/-- `AlertManager._is_duplicate_alert`: in-memory set first, then the
durable store (`getOk = false` is the store-error branch, which fails open);
a durable hit is copied into the in-memory set. -/
def is_duplicate_alert (getOk : Bool) (s : AlertState) (key : String) :
    Bool × AlertState :=
  if key ∈ s.sentMem then
    (true, s)
  else if getOk then
    if key ∈ s.sentStore then
      (true, { s with sentMem := key :: s.sentMem })
    else
      (false, s)
  else
    (false, s)

/-- `AlertManager._record_sent_alert`: always add to the in-memory set; the
durable put may fail (`putOk = false`), which is non-critical. -/
def record_sent_alert (putOk : Bool) (s : AlertState) (key : String) :
    AlertState :=
  let s1 : AlertState := { s with sentMem := key :: s.sentMem }
  if putOk then { s1 with sentStore := key :: s1.sentStore } else s1

/-- Outcome of `AlertManager._send_alert_with_dedup`: `sent` and `failed`
are the return values True and False after an actual dispatch attempt;
`suppressed` is the duplicate early-return False with no dispatch. -/
inductive SendOutcome where
  | sent
  | suppressed
  | failed
deriving DecidableEq

/-- `AlertManager._send_alert_with_dedup`: suppress duplicates, otherwise
dispatch (`sendOk` is the transport result) and record the alert key on
success. -/
def send_alert_with_dedup (getOk sendOk putOk : Bool) (s : AlertState)
    (key : String) : SendOutcome × AlertState :=
  let d := is_duplicate_alert getOk s key
  if d.1 then
    (SendOutcome.suppressed, d.2)
  else if sendOk then
    (SendOutcome.sent, record_sent_alert putOk d.2 key)
  else
    (SendOutcome.failed, d.2)

theorem append_left_cancel_str (x h h' : String) (he : x ++ h = x ++ h') :
    h = h' := by
  have hd := congrArg String.data he
  rw [String.data_append, String.data_append] at hd
  exact String.ext (List.append_cancel_left hd)

theorem alertKey_ne_of_hour_ne (a d m h h' : String) (hne : h ≠ h') :
    alertKey a d m h ≠ alertKey a d m h' := by
  intro he
  exact hne (append_left_cancel_str (a ++ "#" ++ d ++ "#" ++ m ++ "#") h h'
    (by simpa [alertKey, String.append_assoc] using he))


-- Helper lemmas about the store and the key formats

theorem storeGet_put_self (st : Store) (k : String) (v : Int) :
    storeGet (storePut st k v) k = some v := by
  simp [storePut, storeGet]

theorem storeGet_put_ne (st : Store) (k k' : String) (v : Int) (h : k ≠ k') :
    storeGet (storePut st k v) k' = storeGet st k' := by
  simp [storePut, storeGet, h]

theorem key_ne_windowKey (key win : String) : key ≠ windowKey key win := by
  intro h
  have hlen := congrArg String.length h
  rw [windowKey, String.length_append, String.length_append] at hlen
  have h1 : ("#" : String).length = 1 := rfl
  omega

theorem storeNonneg_nil : StoreNonneg [] := by
  intro k c h
  simp [storeGet] at h

theorem storeNonneg_put (st : Store) (k : String) (v : Int)
    (hst : StoreNonneg st) (hv : 0 ≤ v) : StoreNonneg (storePut st k v) := by
  intro k' c h
  by_cases hk : k = k'
  · subst hk
    rw [storeGet_put_self] at h
    injection h with h
    omega
  · rw [storeGet_put_ne st k k' v hk] at h
    exact hst k' c h

theorem get_abuse_counter_nonneg (st : Store) (key : String)
    (hst : StoreNonneg st) : 0 ≤ get_abuse_counter st key := by
  unfold get_abuse_counter
  cases h : storeGet st key with
  | none => simp
  | some c => exact hst key c h

theorem counterStep_nonneg (b : Bool) (c : Int) (hc : 0 ≤ c) :
    0 ≤ counterStep b c := by
  unfold counterStep
  cases b
  · simp
  · simp
    omega

/-- If the window marker is already present, `update_abuse_counter` returns
its cached count and leaves the store untouched. -/
theorem update_abuse_counter_cached (st : Store) (key win : String)
    (b : Bool) (c : Int) (h : storeGet st (windowKey key win) = some c) :
    update_abuse_counter st key win b true true true = (c, st) := by
  simp [update_abuse_counter, h]

/-- On a fresh window with all store operations succeeding,
`update_abuse_counter` returns the stepped count and writes both the
canonical record and the window marker. -/
theorem update_abuse_counter_fresh (st : Store) (key win : String) (b : Bool)
    (h : storeGet st (windowKey key win) = none) :
    update_abuse_counter st key win b true true true =
      (counterStep b (get_abuse_counter st key),
       storePut (storePut st key (counterStep b (get_abuse_counter st key)))
         (windowKey key win) (counterStep b (get_abuse_counter st key))) := by
  simp [update_abuse_counter, h]

theorem updateSeq_stable (key win : String) (b : Bool) (c : Int) (n : Nat)
    (st : Store) (h : storeGet st (windowKey key win) = some c) :
    updateSeq key win b n st = (List.replicate n c, st) := by
  induction n with
  | zero => simp [updateSeq]
  | succ n ih =>
    simp [updateSeq, update_abuse_counter_cached st key win b c h, ih,
      List.replicate_succ]

/-- Claim C1: counter-update idempotency.  If the 15-minute window marker is
already stored, `update_abuse_counter` returns its count and performs no
write; consequently, starting from a state whose window is fresh, a first
call steps the canonical counter once and every one of `n` further identical
calls in the same window returns that same count and leaves the store
(hence the canonical counter) unchanged. -/
theorem update_abuse_counter_idempotent (key win : String) (b : Bool)
    (st : Store) (hfresh : storeGet st (windowKey key win) = none) (n : Nat) :
    (∀ (st0 : Store) (c : Int), storeGet st0 (windowKey key win) = some c →
        update_abuse_counter st0 key win b true true true = (c, st0)) ∧
    updateSeq key win b n (update_abuse_counter st key win b true true true).2 =
      (List.replicate n (update_abuse_counter st key win b true true true).1,
       (update_abuse_counter st key win b true true true).2) ∧
    get_abuse_counter (update_abuse_counter st key win b true true true).2 key =
      (update_abuse_counter st key win b true true true).1 ∧
    (update_abuse_counter st key win b true true true).1 =
      counterStep b (get_abuse_counter st key) := by
  have hfreshEq := update_abuse_counter_fresh st key win b hfresh
  refine ⟨fun st0 c h => update_abuse_counter_cached st0 key win b c h, ?_, ?_, ?_⟩
  · rw [hfreshEq]
    exact updateSeq_stable key win b _ n _ (storeGet_put_self _ _ _)
  · rw [hfreshEq]
    unfold get_abuse_counter
    rw [storeGet_put_ne _ _ _ _ (Ne.symm (key_ne_windowKey key win)),
      storeGet_put_self]
  · rw [hfreshEq]

/-- Witness for C1 at a concrete key, window and state. -/
theorem update_abuse_counter_idempotent_witness :
    get_abuse_counter (update_abuse_counter [] "k" "w" true true true true).2 "k" =
      (update_abuse_counter [] "k" "w" true true true true).1 :=
  (update_abuse_counter_idempotent "k" "w" true [] rfl 1).2.2.1

theorem update_abuse_counter_nonneg_step (st : Store) (key win : String)
    (b g mo wo : Bool) (hst : StoreNonneg st) :
    0 ≤ (update_abuse_counter st key win b g mo wo).1 ∧
    StoreNonneg (update_abuse_counter st key win b g mo wo).2 := by
  unfold update_abuse_counter
  cases hg : (if g then storeGet st (windowKey key win) else none) with
  | some c =>
    have hc : 0 ≤ c := by
      cases g with
      | false => simp at hg
      | true => exact hst _ c (by simpa using hg)
    simp [hg]
    exact ⟨hc, hst⟩
  | none =>
    have hcur : 0 ≤ get_abuse_counter st key := get_abuse_counter_nonneg st key hst
    have hnc : 0 ≤ counterStep b (get_abuse_counter st key) :=
      counterStep_nonneg b _ hcur
    cases mo with
    | false =>
      simp [hg]
      exact ⟨hcur, hst⟩
    | true =>
      cases wo with
      | false =>
        simp [hg]
        exact ⟨hnc, storeNonneg_put _ _ _ hst hnc⟩
      | true =>
        simp [hg]
        exact ⟨hnc, storeNonneg_put _ _ _ (storeNonneg_put _ _ _ hst hnc) hnc⟩

/-- Claim C3: counter non-negativity.  Starting from any store in which
every stored count is non-negative (an absent key reads as 0), any sequence
of `update_abuse_counter` calls — increments and clamped decrements, with
arbitrary store-operation outcomes — only ever returns, stores, and lets
`get_abuse_counter` read non-negative counter values. -/
theorem runUpdates_nonneg (ops : List UpdateOp) (st : Store)
    (hst : StoreNonneg st) :
    (∀ c ∈ (runUpdates ops st).1, 0 ≤ c) ∧
    StoreNonneg (runUpdates ops st).2 ∧
    ∀ k, 0 ≤ get_abuse_counter (runUpdates ops st).2 k := by
  induction ops generalizing st with
  | nil =>
    refine ⟨by simp [runUpdates], by simpa [runUpdates] using hst, ?_⟩
    intro k
    simpa [runUpdates] using get_abuse_counter_nonneg st k hst
  | cons op rest ih =>
    obtain ⟨h1, h2⟩ := update_abuse_counter_nonneg_step st op.key op.win
      op.is_abuse op.winGetOk op.mainPutOk op.winPutOk hst
    obtain ⟨ih1, ih2, ih3⟩ := ih _ h2
    refine ⟨?_, by simpa [runUpdates] using ih2, by simpa [runUpdates] using ih3⟩
    intro c hc
    simp only [runUpdates, List.mem_cons] at hc
    rcases hc with rfl | hc
    · exact h1
    · exact ih1 c hc

/-- Witness for C3: one decrement from an empty store still reads 0. -/
theorem runUpdates_nonneg_witness :
    0 ≤ get_abuse_counter
      (runUpdates [⟨"k", "w", false, true, true, true⟩] []).2 "k" :=
  (runUpdates_nonneg [⟨"k", "w", false, true, true, true⟩] [] storeNonneg_nil).2.2 "k"

/-- Claim C8: counter-update fail-safe on write failure.  On a fresh window,
if the canonical put fails the call returns the pre-update count with the
store unchanged (no phantom increment); if the canonical put succeeds and
only the window-marker put fails, the call still returns the new count and
the canonical record holds it. -/
theorem update_abuse_counter_write_failure (st : Store) (key win : String)
    (b wo : Bool) (hfresh : storeGet st (windowKey key win) = none) :
    update_abuse_counter st key win b true false wo =
      (get_abuse_counter st key, st) ∧
    (update_abuse_counter st key win b true true false).1 =
      counterStep b (get_abuse_counter st key) ∧
    storeGet (update_abuse_counter st key win b true true false).2 key =
      some (counterStep b (get_abuse_counter st key)) := by
  refine ⟨by simp [update_abuse_counter, hfresh], ?_, ?_⟩
  · simp [update_abuse_counter, hfresh]
  · simp [update_abuse_counter, hfresh, storeGet_put_self]

/-- Witness for C8 at a concrete key, window and state. -/
theorem update_abuse_counter_write_failure_witness :
    update_abuse_counter [] "k" "w" true true false true = (0, []) :=
  (update_abuse_counter_write_failure [] "k" "w" true true rfl).1

/-- Claim C2: dual-threshold conjunction.  For every metric, current value,
baseline and configuration, `is_abuse` equals
`(meets_critical or meets_warning) and meets_absolute`, where the relative
checks are `current > baseline * multiplier` (a zero baseline meaning any
positive current exceeds the threshold) and the absolute check compares the
current value against the metric-specific floors. -/
theorem evaluate_metric_dual_threshold (cfg : Config) (m : String)
    (cur avg : ℚ) :
    ((evaluate_metric cfg m cur avg).is_abuse =
      (((evaluate_metric cfg m cur avg).meets_critical_threshold ||
        (evaluate_metric cfg m cur avg).meets_warning_threshold) &&
       (evaluate_metric cfg m cur avg).meets_absolute_threshold)) ∧
    ((evaluate_metric cfg m cur avg).meets_critical_threshold = true ↔
      (if avg = 0 then 0 < cur else avg * cfg.abuse_multiplier < cur)) ∧
    ((evaluate_metric cfg m cur avg).meets_warning_threshold = true ↔
      (if avg = 0 then 0 < cur else avg * cfg.warning_multiplier < cur)) ∧
    ((evaluate_metric cfg m cur avg).meets_absolute_threshold = true ↔
      (if m = "Requests" then
        cfg.critical_requests_threshold ≤ cur ∨
          cfg.warning_requests_threshold ≤ cur
       else
        cfg.critical_bytes_threshold ≤ cur ∨
          cfg.warning_bytes_threshold ≤ cur)) := by
  refine ⟨rfl, ?_, ?_, ?_⟩
  · show check_threshold cur avg cfg.abuse_multiplier = true ↔ _
    by_cases h : avg = 0 <;> simp [check_threshold, h]
  · show check_threshold cur avg cfg.warning_multiplier = true ↔ _
    by_cases h : avg = 0 <;> simp [check_threshold, h]
  · show (check_absolute_threshold cfg m cur).1 = true ↔ _
    unfold check_absolute_threshold
    split_ifs with hm h1 h2 h3 h4 <;> simp_all

/-- Counterexample to claim C6 as stated: with the default configuration,
current 100 and baseline 10 the critical relative threshold is met, yet the
returned severity is None (not Critical), because the source nulls the
severity whenever `is_abuse` is false (here the absolute threshold fails). -/
theorem evaluate_metric_severity_counterexample :
    (evaluate_metric defaultConfig "Requests" 100 10).meets_critical_threshold
        = true ∧
    (evaluate_metric defaultConfig "Requests" 100 10).severity = "None" ∧
    (evaluate_metric defaultConfig "Requests" 100 10).severity ≠ "Critical" := by
  refine ⟨?_, ?_, ?_⟩
  · norm_num [evaluate_metric, check_threshold, check_absolute_threshold,
      defaultConfig]
  · norm_num [evaluate_metric, check_threshold, check_absolute_threshold,
      defaultConfig]
  · norm_num [evaluate_metric, check_threshold, check_absolute_threshold,
      defaultConfig]
    decide

/-- Claim C6 amended: the returned severity is Critical if `is_abuse` and
the critical threshold is met, else Warning if `is_abuse` and the warning
threshold is met, else None (the source replaces the tier label by None
whenever `is_abuse` is false); `multiplier_level` is the responsible
multiplier — critical, else warning, else 0 — independent of `is_abuse`. -/
theorem evaluate_metric_severity_assignment (cfg : Config) (m : String)
    (cur avg : ℚ) :
    ((evaluate_metric cfg m cur avg).severity =
      (if (evaluate_metric cfg m cur avg).is_abuse then
        (if (evaluate_metric cfg m cur avg).meets_critical_threshold then
          "Critical"
         else if (evaluate_metric cfg m cur avg).meets_warning_threshold then
          "Warning"
         else "None")
       else "None")) ∧
    (evaluate_metric cfg m cur avg).multiplier_level =
      (if (evaluate_metric cfg m cur avg).meets_critical_threshold then
        cfg.abuse_multiplier
       else if (evaluate_metric cfg m cur avg).meets_warning_threshold then
        cfg.warning_multiplier
       else 0) :=
  ⟨rfl, rfl⟩

/-- Claim C7: percentage-change floor.  The percentage change equals
`(current - baseline) / max(baseline, minimum_baseline) * 100`, a zero
denominator yielding 0 when current is 0 and positive infinity otherwise;
concretely, baseline 5 with minimum baseline 100 and current 50 is computed
against denominator 100 (45 percent), not against denominator 5 (which
would give 900 percent). -/
theorem calculate_percentage_change_floor (cur avg minB : ℚ) :
    (calculate_percentage_change cur avg minB =
      (if max avg minB = 0 then
        (if cur = 0 then PctChange.finite 0 else PctChange.posInf)
       else PctChange.finite ((cur - avg) / max avg minB * 100))) ∧
    calculate_percentage_change 50 5 100 = PctChange.finite 45 ∧
    calculate_percentage_change 50 5 100 ≠ PctChange.finite 900 := by
  refine ⟨rfl, ?_, ?_⟩
  · norm_num [calculate_percentage_change]
  · norm_num [calculate_percentage_change]

/-- Counterexample to claim C9 as stated: `evaluate_metric` does not treat a
negative current value as a precondition violation — with the default
configuration, current -1 and baseline 10 it silently returns an ordinary
AbuseEvaluation (the source has no validation or raise path). -/
theorem evaluate_metric_negative_counterexample :
    evaluate_metric defaultConfig "Requests" (-1) 10 =
      { is_abuse := false
        severity := "None"
        reason := "Requests within normal range"
        percentage_change := PctChange.finite (-44)
        meets_critical_threshold := false
        meets_warning_threshold := false
        meets_absolute_threshold := false
        multiplier_level := 0 } := by
  norm_num [evaluate_metric, check_threshold, check_absolute_threshold,
    calculate_percentage_change, defaultConfig]
  rfl

/-- Claim C9 amended: `evaluate_metric` is a pure total function — it
performs no I/O and raises no exception on any rational input.  A negative
(in the source also NaN) current value is not rejected but evaluated by the
same formulas; with positive absolute floors it simply fails the absolute
threshold, so `is_abuse` is false. -/
theorem evaluate_metric_negative_not_rejected (cfg : Config) (m : String)
    (cur avg : ℚ) (hneg : cur < 0)
    (h1 : 0 < cfg.critical_requests_threshold)
    (h2 : 0 < cfg.warning_requests_threshold)
    (h3 : 0 < cfg.critical_bytes_threshold)
    (h4 : 0 < cfg.warning_bytes_threshold) :
    (evaluate_metric cfg m cur avg).meets_absolute_threshold = false ∧
    (evaluate_metric cfg m cur avg).is_abuse = false := by
  have habs : (check_absolute_threshold cfg m cur).1 = false := by
    unfold check_absolute_threshold
    split_ifs with hm ha hb hc hd
    · exact absurd ha (by linarith)
    · exact absurd hb (by linarith)
    · rfl
    · exact absurd hc (by linarith)
    · exact absurd hd (by linarith)
    · rfl
  refine ⟨habs, ?_⟩
  show ((check_threshold cur avg cfg.abuse_multiplier ||
      check_threshold cur avg cfg.warning_multiplier) &&
      (check_absolute_threshold cfg m cur).1) = false
  rw [habs, Bool.and_false]

/-- Witness for C9 at a concrete negative input. -/
theorem evaluate_metric_negative_not_rejected_witness :
    (evaluate_metric defaultConfig "Requests" (-1) 10).is_abuse = false :=
  (evaluate_metric_negative_not_rejected defaultConfig "Requests" (-1) 10
    (by norm_num) (by norm_num [defaultConfig]) (by norm_num [defaultConfig])
    (by norm_num [defaultConfig]) (by norm_num [defaultConfig])).2

/-- Claim C4: tiered duration gate.  An alert is queued iff the evaluation
flags abuse and the updated counter meets the tier duration gate — for the
critical tier `new_count >= duration_threshold`, else for the warning tier
`new_count >= warning_duration_threshold`; no alert is queued when
`is_abuse` is false; and with the defaults (critical duration 1, warning
duration 2) a first critical detection alerts immediately while a first
warning detection does not. -/
theorem process_metric_evaluation_tiered_gate (cfg : Config) (st : Store)
    (key win : String) (e : AbuseEvaluation) :
    ((process_metric_evaluation cfg st key win e).alerts_sent = 1 ↔
      (e.is_abuse = true ∧
        ((e.meets_critical_threshold = true ∧
            cfg.duration_threshold ≤
              (process_metric_evaluation cfg st key win e).new_count) ∨
         (e.meets_critical_threshold = false ∧
            e.meets_warning_threshold = true ∧
            cfg.warning_duration_threshold ≤
              (process_metric_evaluation cfg st key win e).new_count)))) ∧
    (e.is_abuse = false →
      (process_metric_evaluation cfg st key win e).alerts_sent = 0) ∧
    (process_metric_evaluation defaultConfig [] "a#D#Requests" "w"
      (evaluate_metric defaultConfig "Requests" 3000 500)).alerts_sent = 1 ∧
    (process_metric_evaluation defaultConfig [] "a#D#Requests" "w"
      (evaluate_metric defaultConfig "Requests" 1300 500)).alerts_sent = 0 := by
  refine ⟨?_, ?_, ?_, ?_⟩
  · cases hia : e.is_abuse <;> cases hc : e.meets_critical_threshold <;>
      cases hw : e.meets_warning_threshold <;>
      simp [process_metric_evaluation, hia, hc, hw]
  · intro h
    simp [process_metric_evaluation, h]
  · norm_num [process_metric_evaluation, update_abuse_counter, windowKey,
      get_abuse_counter, storeGet, storePut, counterStep, evaluate_metric,
      check_threshold, check_absolute_threshold, calculate_percentage_change,
      defaultConfig]
  · norm_num [process_metric_evaluation, update_abuse_counter, windowKey,
      get_abuse_counter, storeGet, storePut, counterStep, evaluate_metric,
      check_threshold, check_absolute_threshold, calculate_percentage_change,
      defaultConfig]

/-- Witness for C4: a non-abusive evaluation queues no alert. -/
theorem process_metric_evaluation_tiered_gate_witness :
    (process_metric_evaluation defaultConfig [] "a#D#Requests" "w"
      (evaluate_metric defaultConfig "Requests" 700 500)).alerts_sent = 0 := by
  have h := process_metric_evaluation_tiered_gate defaultConfig []
    "a#D#Requests" "w" (evaluate_metric defaultConfig "Requests" 700 500)
  exact h.2.1 (by norm_num [evaluate_metric, check_threshold,
    check_absolute_threshold, defaultConfig])

/-- Claim C5: hourly alert deduplication.  From a state that has not
recorded the alert key, a first successful dispatch returns sent and records
the key; any second attempt for the same (account, distribution, metric) in
the same hour is suppressed without dispatching and without changing the
state (whatever the store-check, transport and put outcomes); an attempt in
a different hour is not suppressed by that record and dispatches again. -/
theorem send_alert_with_dedup_hourly (s : AlertState) (a d m h h2 : String)
    (getOk2 sendOk2 putOk2 : Bool)
    (hm1 : alertKey a d m h ∉ s.sentMem)
    (hs1 : alertKey a d m h ∉ s.sentStore)
    (hm2 : alertKey a d m h2 ∉ s.sentMem)
    (hs2 : alertKey a d m h2 ∉ s.sentStore)
    (hne : h ≠ h2) :
    (send_alert_with_dedup true true true s (alertKey a d m h)).1 =
      SendOutcome.sent ∧
    (send_alert_with_dedup getOk2 sendOk2 putOk2
        (send_alert_with_dedup true true true s (alertKey a d m h)).2
        (alertKey a d m h)).1 = SendOutcome.suppressed ∧
    (send_alert_with_dedup getOk2 sendOk2 putOk2
        (send_alert_with_dedup true true true s (alertKey a d m h)).2
        (alertKey a d m h)).2 =
      (send_alert_with_dedup true true true s (alertKey a d m h)).2 ∧
    (send_alert_with_dedup true true true
        (send_alert_with_dedup true true true s (alertKey a d m h)).2
        (alertKey a d m h2)).1 = SendOutcome.sent := by
  have hkne : alertKey a d m h2 ≠ alertKey a d m h :=
    alertKey_ne_of_hour_ne a d m h2 h (Ne.symm hne)
  have hr1 : send_alert_with_dedup true true true s (alertKey a d m h) =
      (SendOutcome.sent,
       ⟨alertKey a d m h :: s.sentMem, alertKey a d m h :: s.sentStore⟩) := by
    simp [send_alert_with_dedup, is_duplicate_alert, record_sent_alert,
      hm1, hs1]
  refine ⟨by rw [hr1], ?_, ?_, ?_⟩
  · rw [hr1]
    simp [send_alert_with_dedup, is_duplicate_alert]
  · rw [hr1]
    simp [send_alert_with_dedup, is_duplicate_alert]
  · rw [hr1]
    simp [send_alert_with_dedup, is_duplicate_alert, record_sent_alert,
      hkne, hm2, hs2]

/-- Witness for C5 at concrete entity, metric and hours. -/
theorem send_alert_with_dedup_hourly_witness :
    (send_alert_with_dedup true true true ⟨[], []⟩
      (alertKey "1" "D" "Requests" "2026010100")).1 = SendOutcome.sent := by
  have h := send_alert_with_dedup_hourly ⟨[], []⟩ "1" "D" "Requests"
    "2026010100" "2026010101" true true true
    (by simp) (by simp) (by simp) (by simp) (by decide)
  exact h.1

/-- Claim C10: small-distribution skip gate.  The skip predicate holds iff
the current request count and the current bytes value are both strictly
below their minimum thresholds; when it holds, `process_distribution`
returns 0 alerts with the counter store untouched (no metric evaluation or
counter update happens), and when it fails processing proceeds with both
metric evaluations and counter updates. -/
theorem process_distribution_skip_gate (cfg : Config) (st : Store)
    (a d win : String) (m : DistributionMetrics) :
    (should_skip_distribution cfg m.current_requests m.current_bytes = true ↔
      (m.current_requests < cfg.min_requests_threshold ∧
       m.current_bytes < cfg.min_bytes_threshold)) ∧
    (should_skip_distribution cfg m.current_requests m.current_bytes = true →
      process_distribution cfg st a d win m = (0, st)) ∧
    (should_skip_distribution cfg m.current_requests m.current_bytes = false →
      process_distribution cfg st a d win m =
        (let requests_eval :=
          evaluate_metric cfg "Requests" m.current_requests m.avg_requests
         let bytes_eval :=
          evaluate_metric cfg "BytesDownloaded" m.current_bytes m.avg_bytes
         let r1 := process_metric_evaluation cfg st
          (a ++ "#" ++ d ++ "#" ++ "Requests") win requests_eval
         let r2 := process_metric_evaluation cfg r1.store
          (a ++ "#" ++ d ++ "#" ++ "BytesDownloaded") win bytes_eval
         (r1.alerts_sent + r2.alerts_sent, r2.store))) := by
  refine ⟨by simp [should_skip_distribution], ?_, ?_⟩
  · intro h
    simp [process_distribution, h]
  · intro h
    simp [process_distribution, h]

/-- Witness for C10: a distribution below both minimums is skipped. -/
theorem process_distribution_skip_gate_witness :
    process_distribution defaultConfig [] "1" "D" "w" ⟨500, 1000, 0, 0⟩ =
      (0, []) := by
  have h := process_distribution_skip_gate defaultConfig [] "1" "D" "w"
    ⟨500, 1000, 0, 0⟩
  exact h.2.1 (by norm_num [should_skip_distribution, defaultConfig])
